import Mathlib

/-! The pages of src/src/App.jsx

A shallow embedding of the review-submission flow of the business detail page:
the JavaScript primitives the handler relies on (`parseInt`, `String.prototype.trim`,
`String.prototype.length`, strict string equality), the page state that the
handlers read and write, and the handlers `fetchBusinessData`, `generateNewCaptcha`
and `handleSubmitReview` themselves; then the list computed by the Discover page, the
mock data of the home page, and the favorite toggle, link and stars of `BusinessCard`.

Backend calls (`invoke(...)`) are modelled by their replies: every handler takes the
reply of each call it awaits as an argument and returns the new page state together
with the trace of observable effects (alerts, console errors, backend calls) in the
order in which they happen.  `handleSubmitReview`, `generateNewCaptcha` and `run`
describe the executions in which every reply arrives before the next event is handled;
`loopStep` and `loopRun` describe the page as an event loop, where a reply is an event
of its own and other events can be handled while a call is in flight.
-/

namespace FBLA

/-! ## JavaScript primitives -/

/-- White space and line terminators of ECMAScript: the code points that
`String.prototype.trim` strips and that `parseInt` skips at the start of its input. -/
def isJsWhiteSpace (c : Char) : Bool :=
  let n := c.toNat
  n == 0x09 || n == 0x0A || n == 0x0B || n == 0x0C || n == 0x0D || n == 0x20 ||
  n == 0xA0 || n == 0x1680 || (0x2000 ≤ n && n ≤ 0x200A) || n == 0x2028 ||
  n == 0x2029 || n == 0x202F || n == 0x205F || n == 0x3000 || n == 0xFEFF

/-- Strip leading white space (the `start` half of `TrimString`). -/
def jsTrimStart (cs : List Char) : List Char :=
  cs.dropWhile isJsWhiteSpace

/-- Strip trailing white space (the `end` half of `TrimString`). -/
def jsTrimEnd (cs : List Char) : List Char :=
  (cs.reverse.dropWhile isJsWhiteSpace).reverse

/-- The method `String.prototype.trim`. -/
def jsTrim (s : String) : String :=
  ⟨jsTrimEnd (jsTrimStart s.data)⟩

/-- Number of UTF-16 code units of one code point. -/
def utf16Units (c : Char) : Nat :=
  if c.toNat < 0x10000 then 1 else 2

/-- The property `length` of a JavaScript string: its number of UTF-16 code units. -/
def jsLength (s : String) : Nat :=
  (s.data.map utf16Units).sum

/-- The result of `parseInt`: `NaN`, or an integer.  The integer is kept exact; the
source only compares it with `1` and `5`, and a value that passes both comparisons is
one of `1, …, 5`, which a JavaScript number represents exactly. -/
inductive JSNumber where
  | nan
  | int (n : Int)
deriving DecidableEq, Repr

/-- The comparison `x < k` of JavaScript for an integer constant `k`: false on `NaN`. -/
def JSNumber.lt (x : JSNumber) (k : Int) : Bool :=
  match x with
  | .nan => false
  | .int n => decide (n < k)

/-- The comparison `x > k` of JavaScript for an integer constant `k`: false on `NaN`. -/
def JSNumber.gt (x : JSNumber) (k : Int) : Bool :=
  match x with
  | .nan => false
  | .int n => decide (n > k)

/-- Value of a character as a digit (`0-9`, `a-z`, `A-Z`), if it is one. -/
def digitValue (c : Char) : Option Nat :=
  let n := c.toNat
  if 48 ≤ n ∧ n ≤ 57 then some (n - 48)
  else if 97 ≤ n ∧ n ≤ 122 then some (n - 97 + 10)
  else if 65 ≤ n ∧ n ≤ 90 then some (n - 65 + 10)
  else none

/-- The digits of the longest prefix of `cs` made of radix-`R` digits. -/
def takeDigits (R : Nat) : List Char → List Nat
  | [] => []
  | c :: cs =>
    match digitValue c with
    | some d => if d < R then d :: takeDigits R cs else []
    | none => []

/-- The function `parseInt(string)` of ECMAScript, called without a radix: skip leading
white space, read an optional sign, an optional `0x`/`0X` prefix (radix 16, otherwise
radix 10), then the longest run of digits; `NaN` when that run is empty. -/
def parseInt (s : String) : JSNumber :=
  let S := jsTrimStart s.data
  let signed : Int × List Char :=
    match S with
    | '-' :: t => (-1, t)
    | '+' :: t => (1, t)
    | _ => (1, S)
  let prefixed : Nat × List Char :=
    match signed.2 with
    | '0' :: 'x' :: t => (16, t)
    | '0' :: 'X' :: t => (16, t)
    | _ => (10, signed.2)
  let Z := takeDigits prefixed.1 prefixed.2
  if Z.isEmpty then JSNumber.nan
  else JSNumber.int (signed.1 * (Z.foldl (fun acc d => acc * prefixed.1 + d) 0 : Nat))

/-! ## Data model -/

/-- A business record as the pages hold it (the fields the handlers read). -/
structure Business where
  id : String
  name : String
  category : String
  average_rating : ℚ
  review_count : Nat
  has_deals : Bool
deriving DecidableEq, Repr

/-- A review as returned by `get_reviews_by_business`. -/
structure Review where
  id : String
  business_id : String
  user_id : String
  rating : Int
  comment : String
deriving DecidableEq, Repr

/-- A deal; the two dates are kept as milliseconds since the epoch (the source stores
their ISO strings, which are ordered like the instants they denote). -/
structure Deal where
  id : String
  business_id : String
  title : String
  discount_code : Option String
  start_date : Int
  end_date : Int
  is_active : Bool
deriving DecidableEq, Repr

/-- The signed-in user passed to the page as a prop. -/
structure User where
  id : String
deriving DecidableEq, Repr

/-- The challenge object held in the `captcha` state: `{ question, answer }`. -/
structure Captcha where
  question : String
  answer : String
deriving DecidableEq, Repr

/-- State of `BusinessDetailPage` read or written by the review flow.
`captchaInstance` is bookkeeping that the source does not store: it numbers the object
held in `captcha` (0 is the object of the initial `useState`, and every object received
from `generate_captcha` and stored by `setCaptcha` gets the next number), so that two
challenges with equal contents are still told apart. -/
structure PageState where
  user : Option User
  businessId : String
  business : Option Business
  reviews : List Review
  deals : List Deal
  isFavorite : Bool
  loading : Bool
  showReviewForm : Bool
  captcha : Captcha
  userCaptchaAnswer : String
  captchaInstance : Nat
deriving DecidableEq, Repr

/-- The values read from the submitted form: `form.rating.value`, `form.comment.value`. -/
structure ReviewForm where
  rating : String
  comment : String
deriving DecidableEq, Repr

/-- Replies of the backend to the calls one submission can make; `none` and `false`
stand for a rejected promise. -/
structure BackendReplies where
  createReview : Bool
  getReviews : Option (List Review)
  generateCaptcha : Option Captcha
deriving DecidableEq, Repr

/-- Replies of the backend to the calls of `fetchBusinessData`: the outer `none` stands
for a rejected promise, the inner `none` for the value `null`. -/
structure FetchReplies where
  business : Option (Option Business)
  reviews : Option (Option (List Review))
  deals : Option (Option (List Deal))
  isFavorite : Option Bool
deriving DecidableEq, Repr

/-- Observable effects of the handlers, in order of occurrence. -/
inductive Effect where
  | alert (msg : String)
  | consoleError (msg : String)
  | invokeGenerateCaptcha
  | invokeCreateReview (businessId userId : String) (rating : JSNumber) (comment : String)
  | invokeGetReviewsByBusiness (businessId : String)
  | formReset
  | invokeGetBusinessById (businessId : String)
  | invokeGetDealsByBusiness (businessId : String)
  | invokeIsFavorite (userId businessId : String)
  | invokeAddFavorite (userId businessId : String)
  | invokeRemoveFavorite (userId businessId : String)
deriving DecidableEq, Repr

def msgIncorrectCaptcha : String := "Incorrect CAPTCHA answer. Please try again."
def msgInvalidRating : String := "Please select a valid rating (1-5 stars)"
def msgInvalidComment : String := "Review must be at least 10 characters long"
def msgThankYou : String := "Thank you for your review! It has been submitted successfully."
def msgSubmitFailed : String := "Failed to submit review. Please try again."
def msgCaptchaFailed : String := "Failed to generate CAPTCHA. Please try again."

/-- Initial state of the page: the arguments of its `useState` calls. -/
def initialState (user : Option User) (businessId : String) : PageState :=
  { user := user
    businessId := businessId
    business := none
    reviews := []
    deals := []
    isFavorite := false
    loading := true
    showReviewForm := false
    captcha := { question := "", answer := "" }
    userCaptchaAnswer := ""
    captchaInstance := 0 }

/-! ## Handlers -/

/-- The value of `user?.id` when it is truthy: the id of a present user, unless it is
the empty string. -/
def truthyUserId (user : Option User) : Option String :=
  match user with
  | some u => if u.id = "" then none else some u.id
  | none => none

/-- The effect body `fetchBusinessData` of `BusinessDetailPage`.  The three calls of
`Promise.all` are issued together; when one is rejected nothing is stored.  Otherwise
a truthy business record is stored and, for a user with an id, `is_favorite` is
awaited (its rejection skips what follows); then the reviews and deals are stored,
`null` being replaced by the empty list. -/
def fetchBusinessData (s : PageState) (replies : FetchReplies) : PageState × List Effect :=
  let calls := [Effect.invokeGetBusinessById s.businessId,
    Effect.invokeGetReviewsByBusiness s.businessId,
    Effect.invokeGetDealsByBusiness s.businessId]
  let failure := Effect.consoleError "Failed to fetch business data:"
  let s0 := { s with loading := true }
  match replies.business, replies.reviews, replies.deals with
  | some businessData, some businessReviews, some businessDeals =>
    match businessData with
    | some record =>
      let s1 := { s0 with business := some record }
      match truthyUserId s.user with
      | some userId =>
        match replies.isFavorite with
        | some favoriteStatus =>
          ({ s1 with isFavorite := favoriteStatus
                     reviews := businessReviews.getD []
                     deals := businessDeals.getD []
                     loading := false },
            calls ++ [Effect.invokeIsFavorite userId record.id])
        | none =>
          ({ s1 with loading := false },
            calls ++ [Effect.invokeIsFavorite userId record.id, failure])
      | none =>
        ({ s1 with reviews := businessReviews.getD []
                   deals := businessDeals.getD []
                   loading := false }, calls)
    | none =>
      ({ s0 with reviews := businessReviews.getD []
                 deals := businessDeals.getD []
                 loading := false }, calls)
  | _, _, _ => ({ s0 with loading := false }, calls ++ [failure])

/-- The part of `generateNewCaptcha` after `await invoke("generate_captcha")`: on a reply
store the new challenge and clear the typed answer, on a rejection log and alert. -/
def captchaSettled (reply : Option Captcha) (s : PageState) : PageState × List Effect :=
  match reply with
  | some newCaptcha =>
    ({ s with captcha := newCaptcha
              userCaptchaAnswer := ""
              captchaInstance := s.captchaInstance + 1 }, [])
  | none =>
    (s, [Effect.consoleError "Failed to generate CAPTCHA:", Effect.alert msgCaptchaFailed])

/-- The handler `generateNewCaptcha`: call `generate_captcha`, then settle. -/
def generateNewCaptcha (reply : Option Captcha) (s : PageState) : PageState × List Effect :=
  let r := captchaSettled reply s
  (r.1, Effect.invokeGenerateCaptcha :: r.2)

/-- The handler `handleSubmitReview`.  The three checks run in the order of the source;
`business.id` and `user.id` throw inside the `try` when the object is `null`.  The call
`generateNewCaptcha()` is not awaited: its `invoke` is issued at the call, and its
continuation runs after the handler's remaining synchronous code. -/
def handleSubmitReview (s : PageState) (form : ReviewForm) (replies : BackendReplies) :
    PageState × List Effect :=
  let rating := parseInt form.rating
  let comment := form.comment
  if s.userCaptchaAnswer ≠ s.captcha.answer then
    let r := generateNewCaptcha replies.generateCaptcha s
    (r.1, Effect.alert msgIncorrectCaptcha :: r.2)
  else if rating.lt 1 || rating.gt 5 then
    (s, [Effect.alert msgInvalidRating])
  else if jsLength (jsTrim comment) < 10 then
    (s, [Effect.alert msgInvalidComment])
  else
    match s.business, s.user with
    | some business, some user =>
      let call := Effect.invokeCreateReview business.id user.id rating comment
      if replies.createReview then
        match replies.getReviews with
        | some updatedReviews =>
          let s1 := { s with reviews := updatedReviews, showReviewForm := false }
          let r := captchaSettled replies.generateCaptcha s1
          (r.1, [call, Effect.invokeGetReviewsByBusiness s.businessId, Effect.formReset,
                 Effect.invokeGenerateCaptcha, Effect.alert msgThankYou] ++ r.2)
        | none =>
          (s, [call, Effect.invokeGetReviewsByBusiness s.businessId,
               Effect.consoleError "Failed to submit review:", Effect.alert msgSubmitFailed])
      else
        (s, [call, Effect.consoleError "Failed to submit review:", Effect.alert msgSubmitFailed])
    | _, _ =>
      (s, [Effect.consoleError "Failed to submit review:", Effect.alert msgSubmitFailed])

/-- Whether an effect is a `create_review` call. -/
def Effect.isCreateReview : Effect → Bool
  | .invokeCreateReview _ _ _ _ => true
  | _ => false

/-- Whether an effect is a backend call of any kind. -/
def Effect.isInvoke : Effect → Bool
  | .invokeGenerateCaptcha => true
  | .invokeCreateReview _ _ _ _ => true
  | .invokeGetReviewsByBusiness _ => true
  | .invokeGetBusinessById _ => true
  | .invokeGetDealsByBusiness _ => true
  | .invokeIsFavorite _ _ => true
  | .invokeAddFavorite _ _ => true
  | .invokeRemoveFavorite _ _ => true
  | _ => false

/-- The `create_review` calls of a trace, in order. -/
def createReviewCalls (effects : List Effect) : List Effect :=
  effects.filter Effect.isCreateReview

/-- The alert messages of a trace, in order. -/
def alerts : List Effect → List String
  | [] => []
  | Effect.alert msg :: rest => msg :: alerts rest
  | _ :: rest => alerts rest

/-- Whether the outcome of a submission is the challenge-failure report: the trace
opens with the alert of line 736. -/
def failsChallenge (out : PageState × List Effect) : Bool :=
  out.2.head? == some (Effect.alert msgIncorrectCaptcha)

/-! ## The Discover page -/

/-- The method `Array.prototype.sort` with a comparison function whose results are kept
as exact rationals: `a` goes before `b` when `compareFn a b` is negative, after it when
positive, and elements that compare equal keep their order (the sort is stable since
ECMAScript 2019).  For a consistent comparison function that fixes the result, which
insertion from the right computes. -/
def jsSort {α : Type} (compareFn : α → α → ℚ) (l : List α) : List α :=
  List.insertionSort (fun a b => compareFn a b ≤ 0) l

/-- The comparison function handed to `sort` by `fetchBusinesses` (lines 319-326).
`localeCompare` is the collation of the host, `String.prototype.localeCompare`. -/
def DiscoverPage.compareFn (localeCompare : String → String → Int) (sortOption : String)
    (a b : Business) : ℚ :=
  if sortOption = "rating" then b.average_rating - a.average_rating
  else if sortOption = "reviews" then (b.review_count : ℚ) - (a.review_count : ℚ)
  else if sortOption = "name" then (localeCompare a.name b.name : ℚ)
  else 0

/-- The predicate of the `filter` call of `fetchBusinesses` (lines 314-317). -/
def DiscoverPage.keeps (categoryFilter : String) (business : Business) : Bool :=
  if categoryFilter = "All" then true else business.category == categoryFilter

/-- The sort step of `fetchBusinesses`: `[...filtered].sort(...)`. -/
def DiscoverPage.sortBusinesses (localeCompare : String → String → Int)
    (sortOption : String) (filtered : List Business) : List Business :=
  jsSort (DiscoverPage.compareFn localeCompare sortOption) filtered

/-- The method `String.prototype.includes`: whether `query` occurs in `text`. -/
def jsIncludes (text query : List Char) : Bool :=
  match text with
  | [] => query.isEmpty
  | c :: cs => query.isPrefixOf (c :: cs) || jsIncludes cs query

/-! ## Events of the review form -/

/-- User events that reach the captcha state, each with the reply of the backend call
it triggers: typing into the captcha input (`onChange`), the "Write a Review"/"Cancel"
button, the refresh button of the captcha, and submitting the form. -/
inductive Event where
  | typeAnswer (value : String)
  | clickWriteReview (captchaReply : Option Captcha)
  | clickRefreshCaptcha (captchaReply : Option Captcha)
  | submit (form : ReviewForm) (replies : BackendReplies)
deriving DecidableEq, Repr

/-- The handler attached to each event. -/
def step (s : PageState) : Event → PageState × List Effect
  | .typeAnswer value => ({ s with userCaptchaAnswer := value }, [])
  | .clickWriteReview reply =>
    generateNewCaptcha reply { s with showReviewForm := !s.showReviewForm }
  | .clickRefreshCaptcha reply => generateNewCaptcha reply s
  | .submit form replies => handleSubmitReview s form replies

/-- Handle a sequence of events, collecting the effects.  Every event comes with the
replies of the calls it triggers, so these are the executions in which no event is
handled while a call is in flight; `loopRun` covers the others. -/
def run (s : PageState) : List Event → PageState × List Effect
  | [] => (s, [])
  | e :: es =>
    let r := step s e
    let rest := run r.1 es
    (rest.1, r.2 ++ rest.2)

/-! ## The review form as an event loop -/

/-- The page together with the backend calls of the review flow that are in flight:
the `generate_captcha` calls whose reply has not arrived (no caller of
`generateNewCaptcha` awaits it), and the submissions suspended at
`await invoke("create_review")` and at `await invoke("get_reviews_by_business")`. -/
structure FormLoop where
  page : PageState
  pendingCaptcha : Nat
  awaitingCreate : Nat
  awaitingReviews : Nat
deriving DecidableEq, Repr

/-- The events the loop handles one at a time: the user events of the form, and the
arrival of a reply to a call in flight. -/
inductive LoopEvent where
  | typeAnswer (value : String)
  | clickWriteReview
  | clickRefreshCaptcha
  | submit (form : ReviewForm)
  | createReviewReply (resolved : Bool)
  | reviewsReply (reply : Option (List Review))
  | captchaReply (reply : Option Captcha)
deriving DecidableEq, Repr

/-- The synchronous part of `handleSubmitReview`, lines 729-758: the three checks, then
either the call `generateNewCaptcha()`, which leaves a `generate_captcha` call in
flight, or the `create_review` call, at which the handler is suspended. -/
def submitStart (l : FormLoop) (form : ReviewForm) : FormLoop × List Effect :=
  let rating := parseInt form.rating
  let comment := form.comment
  if l.page.userCaptchaAnswer ≠ l.page.captcha.answer then
    ({ l with pendingCaptcha := l.pendingCaptcha + 1 },
      [Effect.alert msgIncorrectCaptcha, Effect.invokeGenerateCaptcha])
  else if rating.lt 1 || rating.gt 5 then
    (l, [Effect.alert msgInvalidRating])
  else if jsLength (jsTrim comment) < 10 then
    (l, [Effect.alert msgInvalidComment])
  else
    match l.page.business, l.page.user with
    | some business, some user =>
      ({ l with awaitingCreate := l.awaitingCreate + 1 },
        [Effect.invokeCreateReview business.id user.id rating comment])
    | _, _ =>
      (l, [Effect.consoleError "Failed to submit review:", Effect.alert msgSubmitFailed])

/-- One turn of the event loop.  A reply is handled only when a call of its kind is in
flight.  The reply to `create_review` resumes a suspended submission (lines 760-761 or
the `catch`), the reply to `get_reviews_by_business` resumes it at lines 762-770, where
`generateNewCaptcha()` leaves a call in flight, and the reply to `generate_captcha`
runs lines 720-725. -/
def loopStep (l : FormLoop) : LoopEvent → FormLoop × List Effect
  | .typeAnswer value =>
    ({ l with page := { l.page with userCaptchaAnswer := value } }, [])
  | .clickWriteReview =>
    ({ l with page := { l.page with showReviewForm := !l.page.showReviewForm }
              pendingCaptcha := l.pendingCaptcha + 1 },
      [Effect.invokeGenerateCaptcha])
  | .clickRefreshCaptcha =>
    ({ l with pendingCaptcha := l.pendingCaptcha + 1 }, [Effect.invokeGenerateCaptcha])
  | .submit form => submitStart l form
  | .createReviewReply resolved =>
    if l.awaitingCreate = 0 then (l, [])
    else if resolved then
      ({ l with awaitingCreate := l.awaitingCreate - 1
                awaitingReviews := l.awaitingReviews + 1 },
        [Effect.invokeGetReviewsByBusiness l.page.businessId])
    else
      ({ l with awaitingCreate := l.awaitingCreate - 1 },
        [Effect.consoleError "Failed to submit review:", Effect.alert msgSubmitFailed])
  | .reviewsReply reply =>
    if l.awaitingReviews = 0 then (l, [])
    else
      match reply with
      | some updatedReviews =>
        ({ l with page := { l.page with reviews := updatedReviews, showReviewForm := false }
                  pendingCaptcha := l.pendingCaptcha + 1
                  awaitingReviews := l.awaitingReviews - 1 },
          [Effect.formReset, Effect.invokeGenerateCaptcha, Effect.alert msgThankYou])
      | none =>
        ({ l with awaitingReviews := l.awaitingReviews - 1 },
          [Effect.consoleError "Failed to submit review:", Effect.alert msgSubmitFailed])
  | .captchaReply reply =>
    if l.pendingCaptcha = 0 then (l, [])
    else
      ({ l with page := (captchaSettled reply l.page).1
                pendingCaptcha := l.pendingCaptcha - 1 },
        (captchaSettled reply l.page).2)

/-- Handle a sequence of loop events, collecting the effects. -/
def loopRun (l : FormLoop) : List LoopEvent → FormLoop × List Effect
  | [] => (l, [])
  | e :: es =>
    let r := loopStep l e
    let rest := loopRun r.1 es
    (rest.1, r.2 ++ rest.2)

/-- Whether an event is the arrival of a challenge from `generate_captcha`. -/
def LoopEvent.deliversCaptcha : LoopEvent → Bool
  | .captchaReply (some _) => true
  | _ => false

/-- The loop with the page `s` and no call in flight. -/
def idle (s : PageState) : FormLoop :=
  { page := s, pendingCaptcha := 0, awaitingCreate := 0, awaitingReviews := 0 }

/-- The loop after a submission of `form` and the successful replies to its
`create_review` and `get_reviews_by_business` calls, handled in a row. -/
def afterAcceptedSubmission (l : FormLoop) (form : ReviewForm)
    (updatedReviews : List Review) : FormLoop :=
  (loopRun l [LoopEvent.submit form, LoopEvent.createReviewReply true,
    LoopEvent.reviewsReply (some updatedReviews)]).1

/-! ## Concrete data used in the examples -/

/-- The first mock business of the source. -/
def techHaven : Business :=
  { id := "1", name := "Tech Haven", category := "Electronics",
    average_rating := 9 / 2, review_count := 128, has_deals := true }

/-- The other mock businesses of the Discover page. -/
def cafeBliss : Business :=
  { id := "2", name := "Cafe Bliss", category := "Food",
    average_rating := 24 / 5, review_count := 89, has_deals := false }

def fitZoneGym : Business :=
  { id := "3", name := "FitZone Gym", category := "Services",
    average_rating := 21 / 5, review_count := 156, has_deals := true }

def bookNook : Business :=
  { id := "4", name := "Book Nook", category := "Retail",
    average_rating := 23 / 5, review_count := 67, has_deals := false }

/-- The array `mockBusinesses` of `DiscoverPage.fetchBusinesses`. -/
def DiscoverPage.mockBusinesses : List Business :=
  [techHaven, cafeBliss, fitZoneGym, bookNook]

/-- The list that `DiscoverPage.fetchBusinesses` hands to `setBusinesses`: the mock
businesses filtered by category, then sorted.  The search query is a dependency of the
effect and is not read by its body. -/
def DiscoverPage.fetchBusinesses (localeCompare : String → String → Int)
    (searchQuery categoryFilter sortOption : String) : List Business :=
  let result := DiscoverPage.mockBusinesses
  let filtered := result.filter (DiscoverPage.keeps categoryFilter)
  DiscoverPage.sortBusinesses localeCompare sortOption filtered

/-- The demo user created by `App`. -/
def demoUser : User := { id := "demo-user-123" }

/-- The page of business "1" once its record is loaded, before any challenge was issued. -/
def loadedPage : PageState :=
  { initialState (some demoUser) "1" with business := some techHaven, loading := false }

/-- The page with the review form open on a challenge whose answer the user has typed. -/
def openForm : PageState :=
  { loadedPage with
    showReviewForm := true
    captcha := { question := "What is 2 + 2?", answer := "4" }
    userCaptchaAnswer := "4"
    captchaInstance := 1 }

/-- Replies of a backend on which every call succeeds. -/
def allSucceed : BackendReplies :=
  { createReview := true
    getReviews := some []
    generateCaptcha := some { question := "What is 3 + 5?", answer := "8" } }

/-- Replies of a backend on which `generate_captcha` is rejected and the other calls
succeed. -/
def reissueFails : BackendReplies :=
  { allSucceed with generateCaptcha := none }

/-- A rating and a comment that pass both content checks. -/
def validForm : ReviewForm :=
  { rating := "5", comment := "Great service here" }

/-- Two challenges with different questions and the same answer. -/
def twoPlusTwo : Captcha := { question := "What is 2 + 2?", answer := "4" }

def onePlusThree : Captcha := { question := "What is 1 + 3?", answer := "4" }

/-- A challenge whose answer is a word. -/
def capitalOfFrance : Captcha :=
  { question := "What is the capital of France?", answer := "Paris" }

/-- The normal form of an answer in the words of the specification ("compares normalized
answers"): surrounding white space removed and letters lower-cased.  The source has no
such function; this definition only serves to state the claim about normalization. -/
def specNormalize (answer : String) : String :=
  ⟨(jsTrim answer).data.map Char.toLower⟩

/-- Mean rating of a review list in the words of the specification: the arithmetic
mean of the ratings, and 0 for a business without reviews. -/
def specMeanRating (reviews : List Review) : ℚ :=
  if reviews.length = 0 then 0
  else ((reviews.map (fun r => r.rating)).sum : ℚ) / reviews.length

/-- Consistency of a business summary with a review list, in the words of the
specification: `review_count` is the number of reviews and `average_rating` their mean. -/
def summaryConsistent (business : Business) (reviews : List Review) : Prop :=
  business.review_count = reviews.length ∧ business.average_rating = specMeanRating reviews

/-- A business without reviews, as the backend holds it before the first review. -/
def newShop : Business :=
  { id := "7", name := "Corner Shop", category := "Retail",
    average_rating := 0, review_count := 0, has_deals := false }

/-- The same business in the backend after a review with rating 5 was committed. -/
def newShopReviewed : Business :=
  { newShop with average_rating := 5, review_count := 1 }

/-- The review committed by the submission of `validForm`. -/
def firstReview : Review :=
  { id := "r1", business_id := "7", user_id := "demo-user-123", rating := 5,
    comment := "Great service here" }

/-- Replies of the backend when the page of business "7" is loaded. -/
def newShopLoads : FetchReplies :=
  { business := some (some newShop)
    reviews := some (some [])
    deals := some (some [])
    isFavorite := some false }

/-- Replies of the backend to the submission of the first review of business "7". -/
def firstReviewCommitted : BackendReplies :=
  { createReview := true
    getReviews := some [firstReview]
    generateCaptcha := some onePlusThree }

/-- The page of business "7" after loading, opening the form, answering the challenge
and submitting the first review. -/
def pageAfterFirstReview : PageState :=
  (run (fetchBusinessData (initialState (some demoUser) "7") newShopLoads).1
    [Event.clickWriteReview (some twoPlusTwo), Event.typeAnswer "4",
     Event.submit validForm firstReviewCommitted]).1

/-! ## The home page -/

/-- Seven days in milliseconds: `7 * 24 * 60 * 60 * 1000`. -/
def weekMs : Int := 7 * 24 * 60 * 60 * 1000

/-- The array `mockBusinesses` of `HomePage.fetchData`. -/
def HomePage.mockBusinesses : List Business :=
  [techHaven, cafeBliss]

/-- The array `mockDeals` of `HomePage.fetchData`.  `startReading` is the clock reading
of `new Date()` in `start_date`, `endReading` that of `Date.now()` in `end_date`. -/
def HomePage.mockDeals (startReading endReading : Int) : List Deal :=
  [{ id := "1", business_id := "1", title := "20% Off Electronics",
     discount_code := some "TECH20", start_date := startReading,
     end_date := endReading + weekMs, is_active := true }]

/-- The data that `HomePage.fetchData` hands to `setBusinesses` and `setFeaturedDeals`. -/
def HomePage.fetchData (startReading endReading : Int) : List Business × List Deal :=
  (HomePage.mockBusinesses, HomePage.mockDeals startReading endReading)

/-! ## The business card -/

/-- State of a `BusinessCard`. -/
structure CardState where
  isFavorite : Bool
  favoriteLoading : Bool
deriving DecidableEq, Repr

/-- The handler `toggleFavorite` of `BusinessCard`, run until its backend call has
settled (`callSucceeds` tells whether the promise resolved).  `userId` is the prop
`user?.id`: absent, or a string that is falsy when empty. -/
def BusinessCard.toggleFavorite (userId : Option String) (business : Business)
    (s : CardState) (callSucceeds : Bool) : CardState × List Effect :=
  match userId with
  | none => (s, [])
  | some uid =>
    if uid = "" || s.favoriteLoading then (s, [])
    else if s.isFavorite then
      if callSucceeds then
        ({ isFavorite := false, favoriteLoading := false },
          [Effect.invokeRemoveFavorite uid business.id])
      else
        ({ s with favoriteLoading := false },
          [Effect.invokeRemoveFavorite uid business.id,
           Effect.consoleError "Failed to update favorite:"])
    else
      if callSucceeds then
        ({ isFavorite := true, favoriteLoading := false },
          [Effect.invokeAddFavorite uid business.id])
      else
        ({ s with favoriteLoading := false },
          [Effect.invokeAddFavorite uid business.id,
           Effect.consoleError "Failed to update favorite:"])

/-- The target of the "View Details" link: the template string of line 501. -/
def BusinessCard.detailsLink (business : Business) : String :=
  "/business/" ++ business.id

/-- The method `String.prototype.split` for a separator of one character. -/
def jsSplit (sep : Char) : List Char → List (List Char)
  | [] => [[]]
  | c :: cs =>
    if c = sep then [] :: jsSplit sep cs
    else
      match jsSplit sep cs with
      | seg :: rest => (c :: seg) :: rest
      | [] => [[c]]

/-- The id that `BusinessDetailPage` reads from the path:
`window.location.pathname.split("/").pop()`.  The argument is the path as the browser
reports it for the current URL: percent-encoded, and without query and fragment. -/
def BusinessDetailPage.extractBusinessId (pathname : String) : String :=
  ⟨((jsSplit '/' pathname.data).getLast?).getD []⟩

/-- The function `Math.round` on a finite number, kept as an exact rational: the
closest integer, the larger one of two that are equally close. -/
def mathRound (x : ℚ) : Int :=
  ⌊x + 1 / 2⌋

/-- The number of stars that `BusinessCard` renders with the class `filled`: the stars
of `[1, 2, 3, 4, 5]` with `star <= Math.round(business.average_rating)`. -/
def BusinessCard.filledStars (business : Business) : Nat :=
  (([1, 2, 3, 4, 5] : List Int).filter
    (fun star => decide (star ≤ mathRound business.average_rating))).length

/-- A business whose id holds a space; the browser reports the path of its link,
"/business/a b", as "/business/a%20b". -/
def spacedIdBusiness : Business :=
  { techHaven with id := "a b" }

/-- A business whose id holds a question mark; in its link, "/business/x?y=1", the
part from the question mark on is the query, and the path is "/business/x". -/
def queryIdBusiness : Business :=
  { techHaven with id := "x?y=1" }

/-! ## Basic facts about the handlers -/

theorem captchaSettled_no_createReview (reply : Option Captcha) (s : PageState) :
    createReviewCalls (captchaSettled reply s).2 = [] := by
  cases reply <;> rfl

theorem generateNewCaptcha_no_createReview (reply : Option Captcha) (s : PageState) :
    createReviewCalls (generateNewCaptcha reply s).2 = [] := by
  cases reply <;> rfl

theorem handleSubmitReview_mismatch (s : PageState) (form : ReviewForm)
    (replies : BackendReplies) (h : s.userCaptchaAnswer ≠ s.captcha.answer) :
    handleSubmitReview s form replies =
      ((generateNewCaptcha replies.generateCaptcha s).1,
        Effect.alert msgIncorrectCaptcha ::
          (generateNewCaptcha replies.generateCaptcha s).2) := by
  simp [handleSubmitReview, h]

theorem failsChallenge_iff (s : PageState) (form : ReviewForm) (replies : BackendReplies) :
    failsChallenge (handleSubmitReview s form replies) = true ↔
      s.userCaptchaAnswer ≠ s.captcha.answer := by
  by_cases heq : s.userCaptchaAnswer = s.captcha.answer
  · have hno : failsChallenge (handleSubmitReview s form replies) = false := by
      unfold handleSubmitReview failsChallenge
      rw [if_neg (not_not.mpr heq)]
      repeat' split
      all_goals simp [msgInvalidRating, msgInvalidComment, msgIncorrectCaptcha]
    simp [hno, heq]
  · rw [handleSubmitReview_mismatch s form replies heq]
    simp [failsChallenge, heq]

theorem createReview_requires_checks (s : PageState) (form : ReviewForm)
    (replies : BackendReplies)
    (h : createReviewCalls (handleSubmitReview s form replies).2 ≠ []) :
    s.userCaptchaAnswer = s.captcha.answer ∧
      ((parseInt form.rating).lt 1 || (parseInt form.rating).gt 5) = false ∧
      10 ≤ jsLength (jsTrim form.comment) := by
  by_cases hc : s.userCaptchaAnswer = s.captcha.answer
  · refine ⟨hc, ?_⟩
    cases hr : ((parseInt form.rating).lt 1 || (parseInt form.rating).gt 5)
    · refine ⟨rfl, ?_⟩
      by_contra hl
      push_neg at hl
      apply h
      simp [handleSubmitReview, hc, hr, hl, createReviewCalls, Effect.isCreateReview]
    · exfalso
      apply h
      simp [handleSubmitReview, hc, hr, createReviewCalls, Effect.isCreateReview]
  · exfalso
    apply h
    rw [handleSubmitReview_mismatch s form replies hc]
    have := generateNewCaptcha_no_createReview replies.generateCaptcha s
    simpa [createReviewCalls, Effect.isCreateReview] using this

theorem rating_out_of_range (r : Int) (h : r < 1 ∨ 5 < r) :
    ((JSNumber.int r).lt 1 || (JSNumber.int r).gt 5) = true := by
  rcases h with h | h <;> simp [JSNumber.lt, JSNumber.gt, h]

theorem rating_in_range (r : Int) (h1 : 1 ≤ r) (h5 : r ≤ 5) :
    ((JSNumber.int r).lt 1 || (JSNumber.int r).gt 5) = false := by
  simp [JSNumber.lt, JSNumber.gt]
  omega

/-! ## The order of the checks (C1 – C3) -/

/-- C1: when the typed CAPTCHA answer differs from the answer of the current challenge,
the outcome of `handleSubmitReview` is the challenge-failure report, whatever the rating
and the comment are: the trace is the alert of the challenge failure followed by the
re-issue of a challenge, it holds neither validation alert, and `create_review` is not
invoked. -/
theorem wrong_captcha_reports_challenge_failure (s : PageState) (form : ReviewForm)
    (replies : BackendReplies) (h : s.userCaptchaAnswer ≠ s.captcha.answer) :
    (handleSubmitReview s form replies).2 =
        Effect.alert msgIncorrectCaptcha :: Effect.invokeGenerateCaptcha ::
          (captchaSettled replies.generateCaptcha s).2 ∧
      failsChallenge (handleSubmitReview s form replies) = true ∧
      msgInvalidRating ∉ alerts (handleSubmitReview s form replies).2 ∧
      msgInvalidComment ∉ alerts (handleSubmitReview s form replies).2 ∧
      createReviewCalls (handleSubmitReview s form replies).2 = [] := by
  rw [handleSubmitReview_mismatch s form replies h]
  refine ⟨rfl, by simp [failsChallenge], ?_, ?_, ?_⟩
  · cases replies.generateCaptcha <;>
      simp [generateNewCaptcha, captchaSettled, alerts, msgInvalidRating,
        msgIncorrectCaptcha, msgCaptchaFailed]
  · cases replies.generateCaptcha <;>
      simp [generateNewCaptcha, captchaSettled, alerts, msgInvalidComment,
        msgIncorrectCaptcha, msgCaptchaFailed]
  · cases replies.generateCaptcha <;> rfl

/-- Witness of C1: a wrong answer ("5" for "What is 2 + 2?") with a valid rating and
comment. -/
theorem wrong_captcha_reports_challenge_failure_witness :
    ({ openForm with userCaptchaAnswer := "5" } : PageState).userCaptchaAnswer ≠
        ({ openForm with userCaptchaAnswer := "5" } : PageState).captcha.answer ∧
      failsChallenge (handleSubmitReview { openForm with userCaptchaAnswer := "5" }
        { rating := "5", comment := "Great service here" } allSucceed) = true ∧
      createReviewCalls (handleSubmitReview { openForm with userCaptchaAnswer := "5" }
        { rating := "5", comment := "Great service here" } allSucceed).2 = [] :=
  ⟨by decide,
    (wrong_captcha_reports_challenge_failure { openForm with userCaptchaAnswer := "5" }
      { rating := "5", comment := "Great service here" } allSucceed (by decide)).2.1,
    (wrong_captcha_reports_challenge_failure { openForm with userCaptchaAnswer := "5" }
      { rating := "5", comment := "Great service here" } allSucceed (by decide)).2.2.2.2⟩

/-- C2: when the CAPTCHA answer is correct and the rating is an integer below 1 or above
5, the outcome of `handleSubmitReview` is the invalid-rating report alone, whatever the
comment is (also a comment that is too short), the page state is unchanged and
`create_review` is not invoked. -/
theorem invalid_rating_reported (s : PageState) (form : ReviewForm)
    (replies : BackendReplies) (r : Int)
    (hc : s.userCaptchaAnswer = s.captcha.answer)
    (hr : parseInt form.rating = JSNumber.int r) (hout : r < 1 ∨ 5 < r) :
    handleSubmitReview s form replies = (s, [Effect.alert msgInvalidRating]) ∧
      msgInvalidComment ∉ alerts (handleSubmitReview s form replies).2 ∧
      createReviewCalls (handleSubmitReview s form replies).2 = [] := by
  have hrange := rating_out_of_range r hout
  have hval : handleSubmitReview s form replies = (s, [Effect.alert msgInvalidRating]) := by
    simp [handleSubmitReview, hc, hr, hrange]
  rw [hval]
  refine ⟨rfl, ?_, rfl⟩
  simp [alerts, msgInvalidComment, msgInvalidRating]

/-- Witness of C2: rating 6 together with a comment that is itself too short. -/
theorem invalid_rating_reported_witness :
    openForm.userCaptchaAnswer = openForm.captcha.answer ∧
      parseInt "6" = JSNumber.int 6 ∧
      handleSubmitReview openForm { rating := "6", comment := "bad" } allSucceed =
        (openForm, [Effect.alert msgInvalidRating]) :=
  ⟨by decide, by decide,
    (invalid_rating_reported openForm { rating := "6", comment := "bad" } allSucceed 6
      (by decide) (by decide) (by decide)).1⟩

/-- C3: when the CAPTCHA answer is correct, the rating is an integer between 1 and 5 and
the comment, trimmed of leading and trailing white space, has fewer than 10 characters
(UTF-16 code units, as `length` counts them), the outcome of `handleSubmitReview` is the
invalid-comment report alone, the page state is unchanged and `create_review` is not
invoked. -/
theorem short_comment_reported (s : PageState) (form : ReviewForm)
    (replies : BackendReplies) (r : Int)
    (hc : s.userCaptchaAnswer = s.captcha.answer)
    (hr : parseInt form.rating = JSNumber.int r) (h1 : 1 ≤ r) (h5 : r ≤ 5)
    (hl : jsLength (jsTrim form.comment) < 10) :
    handleSubmitReview s form replies = (s, [Effect.alert msgInvalidComment]) ∧
      createReviewCalls (handleSubmitReview s form replies).2 = [] := by
  have hrange := rating_in_range r h1 h5
  have hval : handleSubmitReview s form replies = (s, [Effect.alert msgInvalidComment]) := by
    simp [handleSubmitReview, hc, hr, hrange, hl]
  rw [hval]
  exact ⟨rfl, rfl⟩

/-- Witness of C3: the comments "   too short   " and twelve spaces, with rating 4. -/
theorem short_comment_reported_witness :
    jsLength (jsTrim "   too short   ") < 10 ∧
      handleSubmitReview openForm { rating := "4", comment := "   too short   " } allSucceed =
        (openForm, [Effect.alert msgInvalidComment]) ∧
      jsLength (jsTrim "            ") < 10 ∧
      handleSubmitReview openForm { rating := "4", comment := "            " } allSucceed =
        (openForm, [Effect.alert msgInvalidComment]) :=
  ⟨by decide,
    (short_comment_reported openForm { rating := "4", comment := "   too short   " }
      allSucceed 4 (by decide) (by decide) (by decide) (by decide) (by decide)).1,
    by decide,
    (short_comment_reported openForm { rating := "4", comment := "            " }
      allSucceed 4 (by decide) (by decide) (by decide) (by decide) (by decide)).1⟩

/-! ## The rating handed to `create_review` (C4) -/

/-- C4, evaluated at a rating field from which no number can be parsed: `parseInt ""` is
`NaN`, both comparisons `NaN < 1` and `NaN > 5` are false, so with a correct CAPTCHA
answer and a long enough comment `create_review` is invoked with the rating `NaN`, which
is no integer between 1 and 5. -/
theorem nan_rating_reaches_create_review :
    parseInt "" = JSNumber.nan ∧
      ((parseInt "").lt 1 || (parseInt "").gt 5) = false ∧
      createReviewCalls (handleSubmitReview openForm
          { rating := "", comment := "Great service here" } allSucceed).2 =
        [Effect.invokeCreateReview "1" "demo-user-123" JSNumber.nan "Great service here"] := by
  decide

/-! ## The successful submission (C5) -/

/-- C5: when the CAPTCHA answer equals the answer of the current challenge, the rating
is an integer between 1 and 5 and the trimmed comment has at least 10 characters,
`handleSubmitReview` invokes `create_review` exactly once, with the id of the loaded
business, the id of the user, that rating and the comment as typed (not trimmed); that
call is the first effect of the trace, so nothing is sent to the backend before it, and
no submission at all invokes `create_review` unless the three checks of the handler have
passed. -/
theorem valid_submission_creates_review (s : PageState) (form : ReviewForm)
    (replies : BackendReplies) (r : Int) (business : Business) (user : User)
    (hc : s.userCaptchaAnswer = s.captcha.answer)
    (hr : parseInt form.rating = JSNumber.int r) (h1 : 1 ≤ r) (h5 : r ≤ 5)
    (hl : 10 ≤ jsLength (jsTrim form.comment))
    (hb : s.business = some business) (hu : s.user = some user) :
    createReviewCalls (handleSubmitReview s form replies).2 =
        [Effect.invokeCreateReview business.id user.id (JSNumber.int r) form.comment] ∧
      (handleSubmitReview s form replies).2.head? =
        some (Effect.invokeCreateReview business.id user.id (JSNumber.int r) form.comment) ∧
      (∀ (s0 : PageState) (form0 : ReviewForm) (replies0 : BackendReplies),
        createReviewCalls (handleSubmitReview s0 form0 replies0).2 ≠ [] →
          s0.userCaptchaAnswer = s0.captcha.answer ∧
            ((parseInt form0.rating).lt 1 || (parseInt form0.rating).gt 5) = false ∧
            10 ≤ jsLength (jsTrim form0.comment)) := by
  have hrange := rating_in_range r h1 h5
  have hl0 : ¬ jsLength (jsTrim form.comment) < 10 := Nat.not_lt.mpr hl
  refine ⟨?_, ?_, createReview_requires_checks⟩
  · unfold handleSubmitReview
    simp only [hc, hr, hrange, hl0, hb, hu, ne_eq, not_true_eq_false, if_false]
    rcases replies with ⟨cr, gr, gc⟩
    cases cr <;> cases gr <;> cases gc <;> rfl
  · unfold handleSubmitReview
    simp only [hc, hr, hrange, hl0, hb, hu, ne_eq, not_true_eq_false, if_false]
    rcases replies with ⟨cr, gr, gc⟩
    cases cr <;> cases gr <;> cases gc <;> rfl

/-- Witness of C5: rating 5 and the comment "  Great service here " on the open form of
business "1". -/
theorem valid_submission_creates_review_witness :
    openForm.userCaptchaAnswer = openForm.captcha.answer ∧
      parseInt "5" = JSNumber.int 5 ∧
      10 ≤ jsLength (jsTrim "  Great service here ") ∧
      createReviewCalls (handleSubmitReview openForm
          { rating := "5", comment := "  Great service here " } allSucceed).2 =
        [Effect.invokeCreateReview "1" "demo-user-123" (JSNumber.int 5)
          "  Great service here "] :=
  ⟨by decide, by decide, by decide,
    (valid_submission_creates_review openForm
      { rating := "5", comment := "  Great service here " } allSucceed 5 techHaven demoUser
      (by decide) (by decide) (by decide) (by decide) (by decide) rfl rfl).1⟩

/-! ## Challenge instances over a run of the form -/

theorem captchaSettled_instance_le (reply : Option Captcha) (s : PageState) :
    s.captchaInstance ≤ (captchaSettled reply s).1.captchaInstance := by
  cases reply <;> simp [captchaSettled]

theorem generateNewCaptcha_instance_le (reply : Option Captcha) (s : PageState) :
    s.captchaInstance ≤ (generateNewCaptcha reply s).1.captchaInstance :=
  captchaSettled_instance_le reply s

theorem handleSubmitReview_instance_le (s : PageState) (form : ReviewForm)
    (replies : BackendReplies) :
    s.captchaInstance ≤ (handleSubmitReview s form replies).1.captchaInstance := by
  unfold handleSubmitReview
  dsimp only
  repeat' split
  all_goals first
    | exact Nat.le_refl _
    | exact generateNewCaptcha_instance_le _ _
    | exact captchaSettled_instance_le replies.generateCaptcha
        { s with reviews := _, showReviewForm := false }

theorem step_instance_le (s : PageState) (e : Event) :
    s.captchaInstance ≤ (step s e).1.captchaInstance := by
  cases e with
  | typeAnswer value => exact Nat.le_refl _
  | clickWriteReview reply =>
    exact generateNewCaptcha_instance_le reply { s with showReviewForm := !s.showReviewForm }
  | clickRefreshCaptcha reply => exact generateNewCaptcha_instance_le reply s
  | submit form replies => exact handleSubmitReview_instance_le s form replies

theorem run_instance_le (es : List Event) (s : PageState) :
    s.captchaInstance ≤ (run s es).1.captchaInstance := by
  induction es generalizing s with
  | nil => exact Nat.le_refl _
  | cons e es ih => exact Nat.le_trans (step_instance_le s e) (ih (step s e).1)

/-! ## Superseded challenges (C6) -/

/-- C6 as stated fails: the challenges "What is 2 + 2?" and "What is 1 + 3?" are issued
one after the other (both `generate_captcha` calls succeed), the active challenge is the
second one, and a submission that supplies the answer of the first one, "4", passes the
challenge check and reaches `create_review`. -/
theorem superseded_answer_accepted_when_equal :
    twoPlusTwo ≠ onePlusThree ∧
      (run loadedPage [Event.clickWriteReview (some twoPlusTwo),
        Event.clickRefreshCaptcha (some onePlusThree),
        Event.typeAnswer twoPlusTwo.answer]).1.captcha = onePlusThree ∧
      failsChallenge (handleSubmitReview
        (run loadedPage [Event.clickWriteReview (some twoPlusTwo),
          Event.clickRefreshCaptcha (some onePlusThree),
          Event.typeAnswer twoPlusTwo.answer]).1 validForm allSucceed) = false ∧
      createReviewCalls (handleSubmitReview
        (run loadedPage [Event.clickWriteReview (some twoPlusTwo),
          Event.clickRefreshCaptcha (some onePlusThree),
          Event.typeAnswer twoPlusTwo.answer]).1 validForm allSucceed).2 =
        [Effect.invokeCreateReview "1" "demo-user-123" (JSNumber.int 5)
          "Great service here"] := by
  decide

/-- C6, amended: after two challenges `c1` and `c2` were issued one after the other
through `generateNewCaptcha`, the active challenge is `c2`; a submission that supplies
the answer of `c2` passes the challenge check, and a submission that supplies the answer
of `c1` fails it exactly when the two answers differ. -/
theorem second_challenge_decides (s : PageState) (c1 c2 : Captcha) (form : ReviewForm)
    (replies : BackendReplies) :
    (generateNewCaptcha (some c2) (generateNewCaptcha (some c1) s).1).1.captcha = c2 ∧
      failsChallenge (handleSubmitReview
        (step (generateNewCaptcha (some c2) (generateNewCaptcha (some c1) s).1).1
          (Event.typeAnswer c2.answer)).1 form replies) = false ∧
      (failsChallenge (handleSubmitReview
        (step (generateNewCaptcha (some c2) (generateNewCaptcha (some c1) s).1).1
          (Event.typeAnswer c1.answer)).1 form replies) = true ↔ c1.answer ≠ c2.answer) := by
  refine ⟨rfl, ?_, ?_⟩
  · have h := failsChallenge_iff
      (step (generateNewCaptcha (some c2) (generateNewCaptcha (some c1) s).1).1
        (Event.typeAnswer c2.answer)).1 form replies
    cases hf : failsChallenge (handleSubmitReview
      (step (generateNewCaptcha (some c2) (generateNewCaptcha (some c1) s).1).1
        (Event.typeAnswer c2.answer)).1 form replies)
    · rfl
    · exact absurd rfl (h.mp hf)
  · exact failsChallenge_iff
      (step (generateNewCaptcha (some c2) (generateNewCaptcha (some c1) s).1).1
        (Event.typeAnswer c1.answer)).1 form replies

/-! ## The event loop and the challenge it holds -/

theorem loopStep_instance_le (l : FormLoop) (e : LoopEvent) :
    l.page.captchaInstance ≤ (loopStep l e).1.page.captchaInstance := by
  cases e with
  | typeAnswer value => exact Nat.le_refl _
  | clickWriteReview => exact Nat.le_refl _
  | clickRefreshCaptcha => exact Nat.le_refl _
  | submit form =>
    simp only [loopStep, submitStart]
    repeat' split
    all_goals exact Nat.le_refl _
  | createReviewReply resolved =>
    simp only [loopStep]
    repeat' split
    all_goals exact Nat.le_refl _
  | reviewsReply reply =>
    simp only [loopStep]
    repeat' split
    all_goals exact Nat.le_refl _
  | captchaReply reply =>
    simp only [loopStep]
    split
    · exact Nat.le_refl _
    · exact captchaSettled_instance_le reply l.page

theorem loopRun_instance_le (es : List LoopEvent) (l : FormLoop) :
    l.page.captchaInstance ≤ (loopRun l es).1.page.captchaInstance := by
  induction es generalizing l with
  | nil => exact Nat.le_refl _
  | cons e es ih => exact Nat.le_trans (loopStep_instance_le l e) (ih (loopStep l e).1)

theorem loopStep_keeps_challenge (l : FormLoop) (e : LoopEvent)
    (h : e.deliversCaptcha = false) :
    (loopStep l e).1.page.captcha = l.page.captcha ∧
      (loopStep l e).1.page.captchaInstance = l.page.captchaInstance := by
  cases e with
  | typeAnswer value => exact ⟨rfl, rfl⟩
  | clickWriteReview => exact ⟨rfl, rfl⟩
  | clickRefreshCaptcha => exact ⟨rfl, rfl⟩
  | submit form =>
    simp only [loopStep, submitStart]
    repeat' split
    all_goals exact ⟨rfl, rfl⟩
  | createReviewReply resolved =>
    simp only [loopStep]
    repeat' split
    all_goals exact ⟨rfl, rfl⟩
  | reviewsReply reply =>
    simp only [loopStep]
    repeat' split
    all_goals exact ⟨rfl, rfl⟩
  | captchaReply reply =>
    cases reply with
    | some newCaptcha => exact absurd h (by simp [LoopEvent.deliversCaptcha])
    | none =>
      simp only [loopStep, captchaSettled]
      split <;> exact ⟨rfl, rfl⟩

theorem loopRun_keeps_challenge (es : List LoopEvent) (l : FormLoop)
    (h : ∀ e ∈ es, e.deliversCaptcha = false) :
    (loopRun l es).1.page.captcha = l.page.captcha ∧
      (loopRun l es).1.page.captchaInstance = l.page.captchaInstance := by
  induction es generalizing l with
  | nil => exact ⟨rfl, rfl⟩
  | cons e es ih =>
    have hstep := loopStep_keeps_challenge l e (h e (List.mem_cons_self e es))
    have hrest := ih (loopStep l e).1 (fun x hx => h x (List.mem_cons_of_mem e hx))
    exact ⟨hrest.1.trans hstep.1, hrest.2.trans hstep.2⟩

theorem loopRun_append (l : FormLoop) (es1 es2 : List LoopEvent) :
    (loopRun l (es1 ++ es2)).1 = (loopRun (loopRun l es1).1 es2).1 := by
  induction es1 generalizing l with
  | nil => rfl
  | cons e es ih => exact ih (loopStep l e).1

theorem loopStep_delivery (l : FormLoop) (c : Captcha) (hp : 0 < l.pendingCaptcha) :
    (loopStep l (LoopEvent.captchaReply (some c))).1.page =
      { l.page with captcha := c, userCaptchaAnswer := "",
                    captchaInstance := l.page.captchaInstance + 1 } := by
  simp [loopStep, captchaSettled, Nat.ne_of_gt hp]

theorem loopRun_after_delivery (l : FormLoop) (c : Captcha) (after : List LoopEvent)
    (hp : 0 < l.pendingCaptcha) :
    l.page.captchaInstance <
      (loopRun l (LoopEvent.captchaReply (some c) :: after)).1.page.captchaInstance := by
  have hle := loopRun_instance_le after (loopStep l (LoopEvent.captchaReply (some c))).1
  rw [loopStep_delivery l c hp] at hle
  exact Nat.lt_of_lt_of_le (Nat.lt_succ_self _) hle

theorem submitStart_called (l : FormLoop) (form : ReviewForm)
    (h : createReviewCalls (loopStep l (LoopEvent.submit form)).2 ≠ []) :
    l.page.userCaptchaAnswer = l.page.captcha.answer ∧
      ∃ call : Effect, submitStart l form =
        ({ l with awaitingCreate := l.awaitingCreate + 1 }, [call]) := by
  revert h
  simp only [loopStep, submitStart]
  repeat' split
  all_goals simp_all [createReviewCalls, Effect.isCreateReview]

/-- The handler `handleSubmitReview` is the run of the loop, started with no call in
flight, in which the replies to the calls of the submission arrive in a row. -/
theorem handleSubmitReview_as_loop (s : PageState) (form : ReviewForm)
    (replies : BackendReplies) :
    loopRun (idle s) [LoopEvent.submit form,
        LoopEvent.createReviewReply replies.createReview,
        LoopEvent.reviewsReply replies.getReviews,
        LoopEvent.captchaReply replies.generateCaptcha] =
      (idle (handleSubmitReview s form replies).1, (handleSubmitReview s form replies).2) := by
  rcases replies with ⟨cr, gr, gc⟩
  by_cases hc : s.userCaptchaAnswer = s.captcha.answer
  · cases hr : ((parseInt form.rating).lt 1 || (parseInt form.rating).gt 5)
    · by_cases hl : jsLength (jsTrim form.comment) < 10
      · have hstart : submitStart (idle s) form =
            (idle s, [Effect.alert msgInvalidComment]) := by
          simp [submitStart, idle, hc, hr, hl]
        have hh : handleSubmitReview s form ⟨cr, gr, gc⟩ =
            (s, [Effect.alert msgInvalidComment]) := by
          simp [handleSubmitReview, hc, hr, hl]
        simp only [loopRun, loopStep, hstart, hh]
        simp [idle]
      · cases hb : s.business with
        | none =>
          have hstart : submitStart (idle s) form = (idle s,
              [Effect.consoleError "Failed to submit review:",
               Effect.alert msgSubmitFailed]) := by
            simp [submitStart, idle, hc, hr, hl, hb]
          have hh : handleSubmitReview s form ⟨cr, gr, gc⟩ = (s,
              [Effect.consoleError "Failed to submit review:",
               Effect.alert msgSubmitFailed]) := by
            simp [handleSubmitReview, hc, hr, hl, hb]
          simp only [loopRun, loopStep, hstart, hh]
          simp [idle]
        | some business =>
          cases hu : s.user with
          | none =>
            have hstart : submitStart (idle s) form = (idle s,
                [Effect.consoleError "Failed to submit review:",
                 Effect.alert msgSubmitFailed]) := by
              simp [submitStart, idle, hc, hr, hl, hb, hu]
            have hh : handleSubmitReview s form ⟨cr, gr, gc⟩ = (s,
                [Effect.consoleError "Failed to submit review:",
                 Effect.alert msgSubmitFailed]) := by
              simp [handleSubmitReview, hc, hr, hl, hb, hu]
            simp only [loopRun, loopStep, hstart, hh]
            simp [idle]
          | some user =>
            have hstart : submitStart (idle s) form =
                ({ idle s with awaitingCreate := 1 },
                  [Effect.invokeCreateReview business.id user.id (parseInt form.rating)
                    form.comment]) := by
              simp [submitStart, idle, hc, hr, hl, hb, hu]
            simp only [loopRun, loopStep, hstart]
            cases cr <;> cases gr <;> cases gc <;>
              simp [handleSubmitReview, hc, hr, hl, hb, hu, idle, captchaSettled]
    · have hstart : submitStart (idle s) form =
          (idle s, [Effect.alert msgInvalidRating]) := by
        simp [submitStart, idle, hc, hr]
      have hh : handleSubmitReview s form ⟨cr, gr, gc⟩ =
          (s, [Effect.alert msgInvalidRating]) := by
        simp [handleSubmitReview, hc, hr]
      simp only [loopRun, loopStep, hstart, hh]
      simp [idle]
  · have hstart : submitStart (idle s) form =
        ({ idle s with pendingCaptcha := 1 },
          [Effect.alert msgIncorrectCaptcha, Effect.invokeGenerateCaptcha]) := by
      simp [submitStart, idle, hc]
    simp only [loopRun, loopStep, hstart]
    rw [handleSubmitReview_mismatch s form ⟨cr, gr, gc⟩ hc]
    cases gc <;> simp [idle, generateNewCaptcha, captchaSettled]

/-! ## Single use (C7) -/

/-- C7 as stated fails: on the open form a submission passes the challenge check and its
`create_review` call succeeds, but the `generate_captcha` call that follows is rejected,
and so is the one made when the form is opened again; the challenge instance that was
used is still the active one, the typed answer is still in place, and the next
submission creates a second review against it.  The same happens when the calls are
not rejected but the form is reopened and submitted before their replies arrive. -/
theorem used_challenge_reused_when_reissue_fails :
    failsChallenge (handleSubmitReview openForm validForm reissueFails) = false ∧
      createReviewCalls (handleSubmitReview openForm validForm reissueFails).2 =
        [Effect.invokeCreateReview "1" "demo-user-123" (JSNumber.int 5)
          "Great service here"] ∧
      (run openForm [Event.submit validForm reissueFails,
        Event.clickWriteReview none]).1.showReviewForm = true ∧
      (run openForm [Event.submit validForm reissueFails,
        Event.clickWriteReview none]).1.captchaInstance = openForm.captchaInstance ∧
      createReviewCalls (run openForm [Event.submit validForm reissueFails,
        Event.clickWriteReview none,
        Event.submit { rating := "1", comment := "Second review, same challenge" }
          reissueFails]).2 =
        [Effect.invokeCreateReview "1" "demo-user-123" (JSNumber.int 5)
          "Great service here",
         Effect.invokeCreateReview "1" "demo-user-123" (JSNumber.int 1)
          "Second review, same challenge"] ∧
      (loopRun (idle openForm) [LoopEvent.submit validForm,
        LoopEvent.createReviewReply true, LoopEvent.reviewsReply (some []),
        LoopEvent.clickWriteReview]).1.page.captchaInstance = openForm.captchaInstance ∧
      createReviewCalls (loopRun (idle openForm) [LoopEvent.submit validForm,
        LoopEvent.createReviewReply true, LoopEvent.reviewsReply (some []),
        LoopEvent.clickWriteReview,
        LoopEvent.submit { rating := "1", comment := "Second review, same challenge" },
        LoopEvent.captchaReply (some onePlusThree),
        LoopEvent.captchaReply (some onePlusThree)]).2 =
        [Effect.invokeCreateReview "1" "demo-user-123" (JSNumber.int 5)
          "Great service here",
         Effect.invokeCreateReview "1" "demo-user-123" (JSNumber.int 1)
          "Second review, same challenge"] := by
  decide

/-- C7, amended: once a submission has passed the challenge check and its
`create_review` call and the refresh of the review list have succeeded,
`generate_captcha` is invoked and left in flight, and the page still holds the used
challenge and the typed answer.  It keeps the used challenge through every event that
does not deliver a challenge, a rejected reply included.  Once a reply that delivers a
challenge is handled, the page holds that challenge with the typed answer cleared, and
after any later events the active challenge is never the used instance. -/
theorem used_challenge_retired_once_reissued (l : FormLoop) (form : ReviewForm)
    (updatedReviews : List Review) (c : Captcha) (before after : List LoopEvent)
    (hcalled : createReviewCalls (loopStep l (LoopEvent.submit form)).2 ≠ []) :
    l.page.userCaptchaAnswer = l.page.captcha.answer ∧
      Effect.invokeGenerateCaptcha ∈
        (loopRun l [LoopEvent.submit form, LoopEvent.createReviewReply true,
          LoopEvent.reviewsReply (some updatedReviews)]).2 ∧
      (afterAcceptedSubmission l form updatedReviews).page =
        { l.page with reviews := updatedReviews, showReviewForm := false } ∧
      (afterAcceptedSubmission l form updatedReviews).pendingCaptcha =
        l.pendingCaptcha + 1 ∧
      (loopStep (afterAcceptedSubmission l form updatedReviews)
        (LoopEvent.captchaReply none)).1.page =
        (afterAcceptedSubmission l form updatedReviews).page ∧
      ((∀ e ∈ before, e.deliversCaptcha = false) →
        (loopRun (afterAcceptedSubmission l form updatedReviews) before).1.page.captcha =
            l.page.captcha ∧
          (loopRun (afterAcceptedSubmission l form updatedReviews)
            before).1.page.captchaInstance = l.page.captchaInstance) ∧
      (0 < (loopRun (afterAcceptedSubmission l form updatedReviews)
          before).1.pendingCaptcha →
        (loopStep (loopRun (afterAcceptedSubmission l form updatedReviews) before).1
            (LoopEvent.captchaReply (some c))).1.page.captcha = c ∧
          (loopStep (loopRun (afterAcceptedSubmission l form updatedReviews) before).1
            (LoopEvent.captchaReply (some c))).1.page.userCaptchaAnswer = "" ∧
          (loopRun (afterAcceptedSubmission l form updatedReviews)
            (before ++ LoopEvent.captchaReply (some c) :: after)).1.page.captchaInstance ≠
            l.page.captchaInstance) := by
  obtain ⟨hc, call, hstart⟩ := submitStart_called l form hcalled
  have hrun : (loopRun l [LoopEvent.submit form, LoopEvent.createReviewReply true,
      LoopEvent.reviewsReply (some updatedReviews)]) =
      ({ l with page := { l.page with reviews := updatedReviews, showReviewForm := false }
                pendingCaptcha := l.pendingCaptcha + 1 },
        [call, Effect.invokeGetReviewsByBusiness l.page.businessId,
          Effect.formReset, Effect.invokeGenerateCaptcha, Effect.alert msgThankYou]) := by
    simp [loopRun, loopStep, hstart]
  have hafter : afterAcceptedSubmission l form updatedReviews =
      { l with page := { l.page with reviews := updatedReviews, showReviewForm := false }
               pendingCaptcha := l.pendingCaptcha + 1 } := by
    unfold afterAcceptedSubmission
    rw [hrun]
  refine ⟨hc, ?_, ?_, ?_, ?_, ?_, ?_⟩
  · rw [hrun]
    simp
  · rw [hafter]
  · rw [hafter]
  · rw [hafter]
    simp [loopStep, captchaSettled]
  · intro hquiet
    have hkeep := loopRun_keeps_challenge before
      (afterAcceptedSubmission l form updatedReviews) hquiet
    rw [hafter] at hkeep ⊢
    exact hkeep
  · intro hpending
    have hdel := loopStep_delivery
      (loopRun (afterAcceptedSubmission l form updatedReviews) before).1 c hpending
    have hlt := loopRun_after_delivery
      (loopRun (afterAcceptedSubmission l form updatedReviews) before).1 c after hpending
    have hle := loopRun_instance_le before (afterAcceptedSubmission l form updatedReviews)
    rw [loopRun_append]
    rw [hafter] at hle hlt hdel ⊢
    refine ⟨by rw [hdel], by rw [hdel], ?_⟩
    exact Nat.ne_of_gt (Nat.lt_of_le_of_lt hle hlt)

/-- Witness of C7 (amended): a valid submission on the open form with no call in
flight; the form is reopened before the challenge arrives, and the old answer typed
after it. -/
theorem used_challenge_retired_once_reissued_witness :
    createReviewCalls (loopStep (idle openForm) (LoopEvent.submit validForm)).2 ≠ [] ∧
      (loopRun (afterAcceptedSubmission (idle openForm) validForm [])
        ([LoopEvent.clickWriteReview] ++
          LoopEvent.captchaReply (some onePlusThree) ::
            [LoopEvent.typeAnswer "4"])).1.page.captchaInstance ≠
        (idle openForm).page.captchaInstance :=
  ⟨by decide,
    ((used_challenge_retired_once_reissued (idle openForm) validForm [] onePlusThree
      [LoopEvent.clickWriteReview] [LoopEvent.typeAnswer "4"]
      (by decide)).2.2.2.2.2.2 (by decide)).2.2⟩

/-! ## Re-issue after a failed check (C8) -/

/-- C8 as stated fails: a submission with the wrong answer "5" fails the challenge check
and `generate_captcha` is invoked, but the call is rejected; the page keeps the failed
challenge instance, and the next submission (with the answer "4" typed meanwhile) is
checked against that same instance and passes.  The same happens when the call
succeeds but the next submission is handled before its reply arrives. -/
theorem failed_challenge_kept_when_reissue_fails :
    failsChallenge (handleSubmitReview { openForm with userCaptchaAnswer := "5" }
        validForm reissueFails) = true ∧
      Effect.invokeGenerateCaptcha ∈
        (handleSubmitReview { openForm with userCaptchaAnswer := "5" }
          validForm reissueFails).2 ∧
      (handleSubmitReview { openForm with userCaptchaAnswer := "5" }
        validForm reissueFails).1.captchaInstance = openForm.captchaInstance ∧
      (handleSubmitReview { openForm with userCaptchaAnswer := "5" }
        validForm reissueFails).1.captcha = openForm.captcha ∧
      failsChallenge (handleSubmitReview
        (run { openForm with userCaptchaAnswer := "5" }
          [Event.submit validForm reissueFails, Event.typeAnswer "4"]).1
        validForm reissueFails) = false ∧
      (loopRun (idle { openForm with userCaptchaAnswer := "5" })
        [LoopEvent.submit validForm, LoopEvent.typeAnswer "4"]).1.page.captchaInstance =
        openForm.captchaInstance ∧
      createReviewCalls (loopRun (idle { openForm with userCaptchaAnswer := "5" })
        [LoopEvent.submit validForm, LoopEvent.typeAnswer "4", LoopEvent.submit validForm,
         LoopEvent.captchaReply (some onePlusThree)]).2 =
        [Effect.invokeCreateReview "1" "demo-user-123" (JSNumber.int 5)
          "Great service here"] := by
  decide

/-- C8, amended: every submission that fails the challenge check invokes
`generate_captcha` and returns with that call in flight and the page state as it was.
The page keeps the failed challenge through every event that does not deliver a
challenge, a rejected reply included, so a submission handled meanwhile is checked
against it.  Once a reply that delivers a challenge is handled, the page holds that
challenge with the typed answer cleared, and after any later events the active
challenge is never the instance that was failed. -/
theorem failed_challenge_reissued (l : FormLoop) (form : ReviewForm) (c : Captcha)
    (before after : List LoopEvent)
    (hfail : l.page.userCaptchaAnswer ≠ l.page.captcha.answer) :
    (loopStep l (LoopEvent.submit form)).2 =
        [Effect.alert msgIncorrectCaptcha, Effect.invokeGenerateCaptcha] ∧
      (loopStep l (LoopEvent.submit form)).1.page = l.page ∧
      (loopStep l (LoopEvent.submit form)).1.pendingCaptcha = l.pendingCaptcha + 1 ∧
      (loopStep (loopStep l (LoopEvent.submit form)).1
        (LoopEvent.captchaReply none)).1.page = l.page ∧
      ((∀ e ∈ before, e.deliversCaptcha = false) →
        (loopRun (loopStep l (LoopEvent.submit form)).1 before).1.page.captcha =
            l.page.captcha ∧
          (loopRun (loopStep l (LoopEvent.submit form)).1 before).1.page.captchaInstance =
            l.page.captchaInstance) ∧
      (0 < (loopRun (loopStep l (LoopEvent.submit form)).1 before).1.pendingCaptcha →
        (loopStep (loopRun (loopStep l (LoopEvent.submit form)).1 before).1
            (LoopEvent.captchaReply (some c))).1.page.captcha = c ∧
          (loopStep (loopRun (loopStep l (LoopEvent.submit form)).1 before).1
            (LoopEvent.captchaReply (some c))).1.page.userCaptchaAnswer = "" ∧
          (loopRun (loopStep l (LoopEvent.submit form)).1
            (before ++ LoopEvent.captchaReply (some c) :: after)).1.page.captchaInstance ≠
            l.page.captchaInstance) := by
  have hstep : loopStep l (LoopEvent.submit form) =
      ({ l with pendingCaptcha := l.pendingCaptcha + 1 },
        [Effect.alert msgIncorrectCaptcha, Effect.invokeGenerateCaptcha]) := by
    simp [loopStep, submitStart, hfail]
  refine ⟨by rw [hstep], by rw [hstep], by rw [hstep], ?_, ?_, ?_⟩
  · rw [hstep]
    simp [loopStep, captchaSettled]
  · intro hquiet
    have hkeep := loopRun_keeps_challenge before (loopStep l (LoopEvent.submit form)).1 hquiet
    rw [hstep] at hkeep ⊢
    exact hkeep
  · intro hpending
    have hdel := loopStep_delivery
      (loopRun (loopStep l (LoopEvent.submit form)).1 before).1 c hpending
    have hlt := loopRun_after_delivery
      (loopRun (loopStep l (LoopEvent.submit form)).1 before).1 c after hpending
    have hle := loopRun_instance_le before (loopStep l (LoopEvent.submit form)).1
    rw [loopRun_append]
    rw [hstep] at hle hlt hdel ⊢
    refine ⟨by rw [hdel], by rw [hdel], ?_⟩
    exact Nat.ne_of_gt (Nat.lt_of_le_of_lt hle hlt)

/-- Witness of C8 (amended): the wrong answer "5" on the open form with no call in
flight; the challenge "What is 1 + 3?" arrives, then the old answer is typed and
submitted. -/
theorem failed_challenge_reissued_witness :
    (idle { openForm with userCaptchaAnswer := "5" }).page.userCaptchaAnswer ≠
        (idle { openForm with userCaptchaAnswer := "5" }).page.captcha.answer ∧
      (loopStep (idle { openForm with userCaptchaAnswer := "5" })
        (LoopEvent.submit validForm)).2 =
        [Effect.alert msgIncorrectCaptcha, Effect.invokeGenerateCaptcha] ∧
      (loopRun (loopStep (idle { openForm with userCaptchaAnswer := "5" })
          (LoopEvent.submit validForm)).1
        ([] ++ LoopEvent.captchaReply (some onePlusThree) ::
          [LoopEvent.typeAnswer "4", LoopEvent.submit validForm])).1.page.captchaInstance ≠
        (idle { openForm with userCaptchaAnswer := "5" }).page.captchaInstance :=
  ⟨by decide,
    (failed_challenge_reissued (idle { openForm with userCaptchaAnswer := "5" }) validForm
      onePlusThree [] [LoopEvent.typeAnswer "4", LoopEvent.submit validForm]
      (by decide)).1,
    ((failed_challenge_reissued (idle { openForm with userCaptchaAnswer := "5" }) validForm
      onePlusThree [] [LoopEvent.typeAnswer "4", LoopEvent.submit validForm]
      (by decide)).2.2.2.2.2 (by decide)).2.2⟩

/-! ## The state before any challenge was issued (C9) -/

/-- C9, evaluated in the state where no challenge has been issued: the form of business
"1" is opened while `generate_captcha` is rejected, which leaves the initial `captcha`
object with its empty answer and the empty typed answer; the submission of that empty
answer is not a challenge failure and `create_review` is invoked. -/
theorem unissued_challenge_accepts_empty_answer :
    (run loadedPage [Event.clickWriteReview none]).1.showReviewForm = true ∧
      (run loadedPage [Event.clickWriteReview none]).1.captcha =
        (initialState (some demoUser) "1").captcha ∧
      (run loadedPage [Event.clickWriteReview none]).1.captchaInstance = 0 ∧
      (run loadedPage [Event.clickWriteReview none]).1.userCaptchaAnswer = "" ∧
      failsChallenge (handleSubmitReview (run loadedPage [Event.clickWriteReview none]).1
        validForm allSucceed) = false ∧
      createReviewCalls (handleSubmitReview (run loadedPage [Event.clickWriteReview none]).1
        validForm allSucceed).2 =
        [Effect.invokeCreateReview "1" "demo-user-123" (JSNumber.int 5)
          "Great service here"] := by
  decide

/-! ## Exact comparison of answers (C10) -/

/-- C10 as stated fails: " 4 " and "4" differ only in surrounding white space, and
"paris" and "Paris" only in letter case, yet in each pair the check of
`handleSubmitReview` rejects the first answer and accepts the second. -/
theorem normalized_equal_answers_judged_differently :
    specNormalize " 4 " = specNormalize "4" ∧
      failsChallenge (handleSubmitReview { openForm with userCaptchaAnswer := " 4 " }
        validForm allSucceed) = true ∧
      failsChallenge (handleSubmitReview { openForm with userCaptchaAnswer := "4" }
        validForm allSucceed) = false ∧
      specNormalize "paris" = specNormalize "Paris" ∧
      failsChallenge (handleSubmitReview
        { openForm with captcha := capitalOfFrance, userCaptchaAnswer := "paris" }
        validForm allSucceed) = true ∧
      failsChallenge (handleSubmitReview
        { openForm with captcha := capitalOfFrance, userCaptchaAnswer := "Paris" }
        validForm allSucceed) = false := by
  decide

/-- C10, amended: the challenge check compares the answers as they are, without
normalization: a submission with the supplied answer `a` passes the check of
`handleSubmitReview` exactly when `a` is the same string as the expected answer, so two
supplied answers get the same verdict whenever both equal or both differ from the
expected answer. -/
theorem challenge_check_is_exact (s : PageState) (a : String) (form : ReviewForm)
    (replies : BackendReplies) :
    failsChallenge (handleSubmitReview { s with userCaptchaAnswer := a } form replies) =
        false ↔ a = s.captcha.answer := by
  have h := failsChallenge_iff { s with userCaptchaAnswer := a } form replies
  cases hf : failsChallenge (handleSubmitReview { s with userCaptchaAnswer := a } form replies)
  · simp only [true_iff]
    by_contra hne
    have := h.mpr hne
    rw [hf] at this
    exact Bool.noConfusion this
  · simp only [Bool.true_eq_false, false_iff]
    exact h.mp hf

/-! ## The summary shown after a submission (C11) -/

/-- C11, evaluated on the first review of a business: the backend is consistent before
(no review, count 0, average 0) and after the submission (one review, count 1, average
5), and the page was loaded from it; after the successful submission the page shows the
refreshed list of one review next to the business record it loaded before, whose
`review_count` is still 0 and whose `average_rating` is still 0: `handleSubmitReview`
refreshes the reviews only. -/
theorem stale_summary_after_submission :
    summaryConsistent newShop [] ∧
      summaryConsistent newShopReviewed [firstReview] ∧
      (fetchBusinessData (initialState (some demoUser) "7") newShopLoads).1.business =
        some newShop ∧
      (fetchBusinessData (initialState (some demoUser) "7") newShopLoads).1.reviews = [] ∧
      msgThankYou ∈ alerts (run
        (fetchBusinessData (initialState (some demoUser) "7") newShopLoads).1
        [Event.clickWriteReview (some twoPlusTwo), Event.typeAnswer "4",
         Event.submit validForm firstReviewCommitted]).2 ∧
      pageAfterFirstReview.business = some newShop ∧
      pageAfterFirstReview.reviews = [firstReview] ∧
      ¬ summaryConsistent newShop [firstReview] := by
  refine ⟨?_, ?_, rfl, rfl, by decide, rfl, rfl, ?_⟩
  · simp [summaryConsistent, specMeanRating, newShop]
  · simp [summaryConsistent, specMeanRating, newShopReviewed, newShop, firstReview]
  · intro h
    exact absurd h.1 (by decide)

/-! ## Sorting -/

theorem jsSort_perm {α : Type} (compareFn : α → α → ℚ) (l : List α) :
    List.Perm (jsSort compareFn l) l :=
  List.perm_insertionSort _ l

theorem jsSort_descending {α : Type} (key : α → ℚ) (l : List α) :
    List.Pairwise (fun a b => key b ≤ key a) (jsSort (fun a b => key b - key a) l) := by
  haveI : IsTotal α (fun a b => key b - key a ≤ 0) :=
    ⟨fun a b => by simp only [sub_nonpos]; exact le_total _ _⟩
  haveI : IsTrans α (fun a b => key b - key a ≤ 0) :=
    ⟨fun a b c h1 h2 => by simp only [sub_nonpos] at *; exact le_trans h2 h1⟩
  have h := List.sorted_insertionSort (fun a b => key b - key a ≤ 0) l
  exact List.Pairwise.imp (fun h => sub_nonpos.mp h) h

theorem filter_orderedInsert_key {α : Type} (key : α → ℚ) (k : ℚ) (a : α) (l : List α) :
    (List.orderedInsert (fun a b => key b - key a ≤ 0) a l).filter
        (fun x => decide (key x = k)) =
      (a :: l).filter (fun x => decide (key x = k)) := by
  induction l with
  | nil => rfl
  | cons b l ih =>
    simp only [List.orderedInsert]
    split_ifs with h
    · rfl
    · have hlt : key a < key b := by
        have := not_le.mp h
        linarith
      rw [List.filter_cons, ih]
      by_cases hk : key a = k
      · have hb : ¬ key b = k := fun hb => absurd (hk.trans hb.symm) (ne_of_lt hlt)
        simp [List.filter_cons, hk, hb]
      · by_cases hb : key b = k <;> simp [List.filter_cons, hk, hb]

theorem jsSort_stable {α : Type} (key : α → ℚ) (k : ℚ) (l : List α) :
    (jsSort (fun a b => key b - key a) l).filter (fun x => decide (key x = k)) =
      l.filter (fun x => decide (key x = k)) := by
  induction l with
  | nil => rfl
  | cons a l ih =>
    have h := filter_orderedInsert_key key k a
      (List.insertionSort (fun a b => key b - key a ≤ 0) l)
    simp only [jsSort, List.insertionSort] at ih ⊢
    rw [h, List.filter_cons, List.filter_cons, ih]

theorem compareFn_rating (localeCompare : String → String → Int) :
    DiscoverPage.compareFn localeCompare "rating" =
      fun a b => b.average_rating - a.average_rating := by
  funext a b
  simp [DiscoverPage.compareFn]

theorem compareFn_reviews (localeCompare : String → String → Int) :
    DiscoverPage.compareFn localeCompare "reviews" =
      fun a b => (b.review_count : ℚ) - (a.review_count : ℚ) := by
  funext a b
  simp [DiscoverPage.compareFn]

theorem mockBusinesses_nodup : DiscoverPage.mockBusinesses.Nodup := by
  apply List.Nodup.of_map Business.id
  decide

/-! ## Search on the Discover page (C12) -/

/-- C12, evaluated at a query that matches no business: no mock business has a name
that contains "zzz", and with that query typed (category "All", sort option "rating")
`fetchBusinesses` still computes the list of all four businesses; the query is not
read by the filter. -/
theorem search_query_not_applied :
    (∀ b ∈ DiscoverPage.mockBusinesses, jsIncludes b.name.data "zzz".data = false) ∧
      DiscoverPage.fetchBusinesses (fun _ _ => 0) "zzz" "All" "rating" =
        [cafeBliss, bookNook, techHaven, fitZoneGym] ∧
      DiscoverPage.fetchBusinesses (fun _ _ => 0) "zzz" "All" "rating" =
        DiscoverPage.fetchBusinesses (fun _ _ => 0) "" "All" "rating" := by
  refine ⟨by decide, ?_, rfl⟩
  simp [DiscoverPage.fetchBusinesses, DiscoverPage.mockBusinesses, DiscoverPage.keeps,
    DiscoverPage.sortBusinesses, jsSort, DiscoverPage.compareFn, techHaven, cafeBliss,
    fitZoneGym, bookNook]
  norm_num

/-! ## The category filter (C13) -/

/-- C13: for every category filter value `c` (and every search query, sort option and
collation), the list computed by `fetchBusinesses` has no duplicates and holds mock
businesses only; when `c` is "All" it is a rearrangement of the four mock businesses,
otherwise its members are exactly the mock businesses whose category equals `c`; the
filter "Food" yields Cafe Bliss alone. -/
theorem category_filter_exact (localeCompare : String → String → Int)
    (searchQuery c sortOption : String) :
    (DiscoverPage.fetchBusinesses localeCompare searchQuery c sortOption).Nodup ∧
      (∀ b ∈ DiscoverPage.fetchBusinesses localeCompare searchQuery c sortOption,
        b ∈ DiscoverPage.mockBusinesses) ∧
      (c = "All" →
        List.Perm (DiscoverPage.fetchBusinesses localeCompare searchQuery c sortOption)
          DiscoverPage.mockBusinesses) ∧
      (c ≠ "All" → ∀ b : Business,
        b ∈ DiscoverPage.fetchBusinesses localeCompare searchQuery c sortOption ↔
          b ∈ DiscoverPage.mockBusinesses ∧ b.category = c) ∧
      DiscoverPage.fetchBusinesses localeCompare searchQuery "Food" sortOption =
        [cafeBliss] := by
  have hperm : List.Perm (DiscoverPage.fetchBusinesses localeCompare searchQuery c sortOption)
      (DiscoverPage.mockBusinesses.filter (DiscoverPage.keeps c)) :=
    jsSort_perm _ _
  refine ⟨?_, ?_, ?_, ?_, ?_⟩
  · exact hperm.nodup_iff.mpr (mockBusinesses_nodup.filter _)
  · intro b hb
    exact (List.mem_filter.mp (hperm.mem_iff.mp hb)).1
  · intro hall
    have hfilter : DiscoverPage.mockBusinesses.filter (DiscoverPage.keeps c) =
        DiscoverPage.mockBusinesses := by
      apply List.filter_eq_self.mpr
      intro b _
      simp [DiscoverPage.keeps, hall]
    rw [← hfilter]
    exact hperm
  · intro hne b
    rw [hperm.mem_iff, List.mem_filter]
    simp [DiscoverPage.keeps, hne]
  · simp [DiscoverPage.fetchBusinesses, DiscoverPage.mockBusinesses, DiscoverPage.keeps,
      DiscoverPage.sortBusinesses, jsSort, techHaven, cafeBliss, fitZoneGym, bookNook]

/-! ## The numeric sort options (C14) -/

/-- C14: for every filtered list, the sort step of `fetchBusinesses` with the option
"rating" returns a rearrangement of the list in non-increasing order of
`average_rating`, and with the option "reviews" a rearrangement in non-increasing order
of `review_count`; in both cases the businesses that share a key value appear in the
order they had in the filtered list. -/
theorem numeric_sort_descending_stable (localeCompare : String → String → Int)
    (filtered : List Business) :
    (List.Perm (DiscoverPage.sortBusinesses localeCompare "rating" filtered) filtered ∧
      List.Pairwise (fun a b => b.average_rating ≤ a.average_rating)
        (DiscoverPage.sortBusinesses localeCompare "rating" filtered) ∧
      ∀ k : ℚ, (DiscoverPage.sortBusinesses localeCompare "rating" filtered).filter
          (fun x => decide (x.average_rating = k)) =
        filtered.filter (fun x => decide (x.average_rating = k))) ∧
    (List.Perm (DiscoverPage.sortBusinesses localeCompare "reviews" filtered) filtered ∧
      List.Pairwise (fun a b => b.review_count ≤ a.review_count)
        (DiscoverPage.sortBusinesses localeCompare "reviews" filtered) ∧
      ∀ k : Nat, (DiscoverPage.sortBusinesses localeCompare "reviews" filtered).filter
          (fun x => decide (x.review_count = k)) =
        filtered.filter (fun x => decide (x.review_count = k))) := by
  unfold DiscoverPage.sortBusinesses
  rw [compareFn_rating, compareFn_reviews]
  refine ⟨⟨jsSort_perm _ _, jsSort_descending (fun b => b.average_rating) filtered,
    fun k => jsSort_stable (fun b => b.average_rating) k filtered⟩,
    jsSort_perm _ _, ?_, ?_⟩
  · exact List.Pairwise.imp (fun h => Nat.cast_le.mp h)
      (jsSort_descending (fun b : Business => (b.review_count : ℚ)) filtered)
  · intro k
    have h := jsSort_stable (fun b : Business => (b.review_count : ℚ)) (k : ℚ) filtered
    simpa [Nat.cast_inj] using h

/-! ## The mock data of the home page (C15) -/

/-- C15: the mock data of `HomePage.fetchData` satisfies the `has_deals` invariant at
every instant `t` from the clock reading of the deal's `start_date` to seven days after
the reading of its `end_date` (in particular at `t` when both readings are `t`): a mock
business has `has_deals` set exactly when some mock deal of that business is active and
has `t` in its window; and every mock deal belongs to a mock business. -/
theorem home_mock_has_deals_invariant (startReading endReading t : Int)
    (hs : startReading ≤ t) (he : t ≤ endReading + weekMs) :
    (∀ b ∈ (HomePage.fetchData startReading endReading).1,
      b.has_deals = true ↔
        ∃ d ∈ (HomePage.fetchData startReading endReading).2,
          d.business_id = b.id ∧ d.is_active = true ∧ d.start_date ≤ t ∧ t ≤ d.end_date) ∧
      (∀ d ∈ (HomePage.fetchData startReading endReading).2,
        ∃ b ∈ (HomePage.fetchData startReading endReading).1, b.id = d.business_id) := by
  constructor
  · intro b hb
    simp only [HomePage.fetchData, HomePage.mockBusinesses, List.mem_cons,
      List.mem_singleton, List.not_mem_nil, or_false] at hb
    rcases hb with rfl | rfl
    · simp [HomePage.fetchData, HomePage.mockDeals, techHaven, hs, he]
    · simp [HomePage.fetchData, HomePage.mockDeals, cafeBliss]
  · intro d hd
    simp only [HomePage.fetchData, HomePage.mockDeals, List.mem_singleton] at hd
    subst hd
    exact ⟨techHaven, by simp [HomePage.fetchData, HomePage.mockBusinesses], rfl⟩

/-- Witness of C15: all clock readings equal to 1 700 000 000 000 ms. -/
theorem home_mock_has_deals_invariant_witness :
    (1700000000000 : Int) ≤ 1700000000000 ∧
      (1700000000000 : Int) ≤ 1700000000000 + weekMs ∧
      (∀ d ∈ (HomePage.fetchData 1700000000000 1700000000000).2,
        ∃ b ∈ (HomePage.fetchData 1700000000000 1700000000000).1, b.id = d.business_id) :=
  ⟨by decide, by decide,
    (home_mock_has_deals_invariant 1700000000000 1700000000000 1700000000000
      (by decide) (by decide)).2⟩

/-! ## The favorite toggle of the business card (C17) -/

/-- C17: on a card with a user id and no toggle in flight, `toggleFavorite` makes
exactly one backend call, `remove_favorite` when the card shows favorited and
`add_favorite` otherwise; when the call succeeds the shown status is the negation of
the old one, when it fails the shown status is unchanged, and `favoriteLoading` is
false afterwards in both cases. -/
theorem toggleFavorite_one_call (uid : String) (business : Business) (s : CardState)
    (callSucceeds : Bool) (hid : uid ≠ "") (hidle : s.favoriteLoading = false) :
    (BusinessCard.toggleFavorite (some uid) business s callSucceeds).2.filter
        Effect.isInvoke =
        [if s.isFavorite then Effect.invokeRemoveFavorite uid business.id
          else Effect.invokeAddFavorite uid business.id] ∧
      (BusinessCard.toggleFavorite (some uid) business s callSucceeds).1.isFavorite =
        (if callSucceeds then !s.isFavorite else s.isFavorite) ∧
      (BusinessCard.toggleFavorite (some uid) business s callSucceeds).1.favoriteLoading =
        false := by
  rcases s with ⟨fav, loading⟩
  simp only at hidle
  subst hidle
  cases fav <;> cases callSucceeds <;>
    simp [BusinessCard.toggleFavorite, hid, Effect.isInvoke]

/-- Witness of C17: the demo user removes Tech Haven from the favorites. -/
theorem toggleFavorite_one_call_witness :
    "demo-user-123" ≠ "" ∧
      (BusinessCard.toggleFavorite (some "demo-user-123") techHaven
        { isFavorite := true, favoriteLoading := false } true).2.filter Effect.isInvoke =
        [Effect.invokeRemoveFavorite "demo-user-123" techHaven.id] :=
  ⟨by decide,
    (toggleFavorite_one_call "demo-user-123" techHaven
      { isFavorite := true, favoriteLoading := false } true (by decide) rfl).1⟩

/-! ## The link of a card and the id read by the detail page (C18) -/

theorem jsSplit_of_not_mem (sep : Char) (cs : List Char) (h : sep ∉ cs) :
    jsSplit sep cs = [cs] := by
  induction cs with
  | nil => rfl
  | cons c cs ih =>
    have hc : c ≠ sep := fun hc => h (hc ▸ List.mem_cons_self c cs)
    have hcs : sep ∉ cs := fun hmem => h (List.mem_cons_of_mem c hmem)
    simp [jsSplit, hc, ih hcs]

/-- C18, evaluated at two ids without "/": the link of the business with id "a b" is
"/business/a b", for which the browser reports the path "/business/a%20b", and the
page extracts "a%20b"; the link of the business with id "x?y=1" is "/business/x?y=1",
whose path is "/business/x", and the page extracts "x".  In both cases the extracted
id is not the id of the business. -/
theorem encoded_path_id_not_recovered :
    '/' ∉ spacedIdBusiness.id.data ∧
      BusinessCard.detailsLink spacedIdBusiness = "/business/a b" ∧
      BusinessDetailPage.extractBusinessId "/business/a%20b" = "a%20b" ∧
      BusinessDetailPage.extractBusinessId "/business/a%20b" ≠ spacedIdBusiness.id ∧
      '/' ∉ queryIdBusiness.id.data ∧
      BusinessCard.detailsLink queryIdBusiness = "/business/x?y=1" ∧
      BusinessDetailPage.extractBusinessId "/business/x" = "x" ∧
      BusinessDetailPage.extractBusinessId "/business/x" ≠ queryIdBusiness.id := by
  decide

/-! ## The stars of a card (C19) -/

theorem mathRound_bounds (r : ℚ) (h0 : 0 ≤ r) (h5 : r ≤ 5) :
    0 ≤ mathRound r ∧ mathRound r ≤ 5 := by
  unfold mathRound
  constructor
  · apply Int.floor_nonneg.mpr
    linarith
  · have hlt : ⌊r + 1 / 2⌋ < 6 := by
      apply Int.floor_lt.mpr
      push_cast
      linarith
    omega

theorem filledStars_eq_mathRound (business : Business)
    (h0 : 0 ≤ mathRound business.average_rating)
    (h5 : mathRound business.average_rating ≤ 5) :
    (BusinessCard.filledStars business : Int) = mathRound business.average_rating := by
  unfold BusinessCard.filledStars
  generalize mathRound business.average_rating = n at h0 h5
  interval_cases n <;> decide

/-- C19: for every business whose `average_rating` `r` lies between 0 and 5, the number
of filled stars of its card is `Math.round(r)`, which is the integer nearest to `r` with
halves rounded up (it differs from `r` by at most one half, and by less than one half
from below), and lies between 0 and 5; a business with rating 0 shows no filled star
and one with rating 4.5 shows five. -/
theorem filled_stars_round_half_up (business : Business)
    (h0 : 0 ≤ business.average_rating) (h5 : business.average_rating ≤ 5) :
    (BusinessCard.filledStars business : Int) = mathRound business.average_rating ∧
      (BusinessCard.filledStars business : ℚ) - 1 / 2 ≤ business.average_rating ∧
      business.average_rating < (BusinessCard.filledStars business : ℚ) + 1 / 2 ∧
      BusinessCard.filledStars business ≤ 5 ∧
      BusinessCard.filledStars newShop = 0 ∧
      BusinessCard.filledStars techHaven = 5 := by
  obtain ⟨hlo, hhi⟩ := mathRound_bounds business.average_rating h0 h5
  have heq := filledStars_eq_mathRound business hlo hhi
  have hq : (BusinessCard.filledStars business : ℚ) =
      ((mathRound business.average_rating : Int) : ℚ) := by
    rw [← heq]
    simp
  have hfloor : ((mathRound business.average_rating : Int) : ℚ) ≤
      business.average_rating + 1 / 2 := Int.floor_le _
  have hceil : business.average_rating + 1 / 2 <
      ((mathRound business.average_rating : Int) : ℚ) + 1 := Int.lt_floor_add_one _
  have hzero : mathRound newShop.average_rating = 0 := by
    unfold mathRound
    rw [Int.floor_eq_iff]
    norm_num [newShop]
  have hfive : mathRound techHaven.average_rating = 5 := by
    unfold mathRound
    rw [Int.floor_eq_iff]
    norm_num [techHaven]
  have hnew := filledStars_eq_mathRound newShop (by rw [hzero]) (by rw [hzero]; decide)
  have htech := filledStars_eq_mathRound techHaven (by rw [hfive]; decide) (by rw [hfive])
  rw [hzero] at hnew
  rw [hfive] at htech
  refine ⟨heq, ?_, ?_, ?_, ?_, ?_⟩
  · rw [hq]; linarith
  · rw [hq]; linarith
  · omega
  · exact_mod_cast hnew
  · exact_mod_cast htech

/-- Witness of C19: Tech Haven, with `average_rating` 4.5. -/
theorem filled_stars_round_half_up_witness :
    (0 : ℚ) ≤ techHaven.average_rating ∧ techHaven.average_rating ≤ 5 ∧
      BusinessCard.filledStars techHaven ≤ 5 :=
  ⟨by norm_num [techHaven], by norm_num [techHaven],
    (filled_stars_round_half_up techHaven (by norm_num [techHaven])
      (by norm_num [techHaven])).2.2.2.1⟩

end FBLA
